import Mathlib

/-!
# Verification of the DriveboardFirmware stepper core (`src/firmware/src/stepper.c`)

This file gives a shallow embedding of the stepper-motor pulse-generation core of
DriveboardFirmware and proves properties of it that the natural-language
specification states.

The embedding follows the C source closely:

* machine integers are modelled as `Nat` (for the unsigned `uint8_t`/`uint16_t`/
  `uint32_t` fields) and `Int` (for the signed `int32_t` Bresenham counters and
  the absolute position), with wrap-around made explicit at the one place where
  a narrowing conversion occurs (the `uint8_t` argument of
  `control_laser_intensity`);
* the step ISR (`ISR(TIMER1_COMPA_vect)`) becomes a pure state-transition
  function `stepperISR` on a machine state, with the sensed inputs (limit
  switches, door, chiller) passed in as a record;
* external collaborators that the spec declares out of scope (planner queue,
  serial transport, laser PWM duty register) are modelled as fields of the
  machine state, exactly as the spec's interface section describes them.

Pin-level outputs (the actual port writes, the TIMER2 pulse-reset one-shot and
the TIMER0 laser one-shot) are hardware effects outside a functional embedding;
the logical content that decides the claims (which axes step, in which
direction, what duty is commanded) is kept.
-/

set_option autoImplicit false

namespace DB

/-! ### Compile-time constants (from the source and its comments)

`F_CPU` and `ACCELERATION_TICKS_PER_SECOND` live in `config.h`, which is not
part of the sources; their values are fixed by the comments in `stepper.c`
(lines 58-60: `CYCLES_PER_MINUTE (60*F_CPU)  // 960000000`,
`CYCLES_PER_ACCELERATION_TICK (F_CPU/ACCELERATION_TICKS_PER_SECOND) // 16MHz/100 = 160000`).
-/

def F_CPU : ℕ := 16000000

def ACCELERATION_TICKS_PER_SECOND : ℕ := 100

def CYCLES_PER_MINUTE : ℕ := 60 * F_CPU

def CYCLES_PER_ACCELERATION_TICK : ℕ := F_CPU / ACCELERATION_TICKS_PER_SECOND

/-- Modelled from the spec: the stop-status enumeration (`STOPERROR_*`) is
declared in a header that is not among the sources; the spec fixes the stable
set of codes (`OK`, `LIMIT_HIT_X1`, ..., `LIMIT_HIT_Z2`).  Only distinctness of
the codes matters to the claims, so they are numbered consecutively. -/
def STOPERROR_OK : ℕ := 0

def STOPERROR_LIMIT_HIT_X1 : ℕ := 1

def STOPERROR_LIMIT_HIT_X2 : ℕ := 2

def STOPERROR_LIMIT_HIT_Y1 : ℕ := 3

def STOPERROR_LIMIT_HIT_Y2 : ℕ := 4

def STOPERROR_LIMIT_HIT_Z1 : ℕ := 5

def STOPERROR_LIMIT_HIT_Z2 : ℕ := 6

/-! ### Blocks (input records produced by the planner) -/

/-- Block types dispatched by the step ISR (`switch (current_block->type)`). -/
inductive BlockType where
  | line
  | raster_line
  | air_assist_enable
  | air_assist_disable
  | aux1_assist_enable
  | aux1_assist_disable
  | aux2_assist_enable
  | aux2_assist_disable
deriving DecidableEq, Repr

/-- A planner block, restricted to the fields `stepper.c` reads.  The numeric
fields are unsigned 32-bit (`step_event_count`, per-axis steps, rates) or
8-bit (`nominal_laser_intensity`) in the C struct; the per-axis direction bits
of `direction_bits` are modelled as three booleans because the concrete bit
positions (`X_DIRECTION_BIT`, ...) are configuration constants the claims never
depend on. -/
structure Block where
  btype : BlockType
  steps_x : ℕ
  steps_y : ℕ
  steps_z : ℕ
  dir_x : Bool
  dir_y : Bool
  dir_z : Bool
  step_event_count : ℕ
  initial_rate : ℕ
  nominal_rate : ℕ
  final_rate : ℕ
  rate_delta : ℕ
  accelerate_until : ℕ
  decelerate_after : ℕ
  nominal_laser_intensity : ℕ
  pixel_steps : ℕ
deriving DecidableEq, Repr

/-- The `out_bits` output byte, split into its step and direction bits (the
concrete bit positions `X_STEP_BIT`, ... are configuration constants). -/
structure OutBits where
  step_x : Bool
  step_y : Bool
  step_z : Bool
  dir_x : Bool
  dir_y : Bool
  dir_z : Bool
deriving DecidableEq, Repr

/-- Bitwise XOR on the modelled `out_bits` byte (`out_bits ^= INVERT_MASK`). -/
def OutBits.xorBits (a b : OutBits) : OutBits :=
  ⟨xor a.step_x b.step_x, xor a.step_y b.step_y, xor a.step_z b.step_z,
   xor a.dir_x b.dir_x, xor a.dir_y b.dir_y, xor a.dir_z b.dir_z⟩

/-- Configuration parameters of the build.  `MINIMUM_STEPS_PER_MINUTE`,
`CONFIG_BEAMDYNAMICS_EVERY`, `INVERT_MASK` and the feature flags live in
`config.h`, which is not among the sources, so they are kept abstract.
`beam_dynamics` stands for `adjust_beam_dynamics` (stepper.c lines 582-595),
which computes a dimmed intensity in floating point; no claim depends on its
value, so it is carried as an arbitrary total function. -/
structure Config where
  min_steps_per_minute : ℕ
  beamdynamics_every : ℕ
  beam_dynamics : Block → ℕ → ℕ
  invert_mask : OutBits
  enable_interlocks : Bool
  enable_3axes : Bool

/-! ### Timer controller and acceleration tick (stepper.c lines 521-579) -/

/-- `config_step_timer` (stepper.c lines 537-572): picks prescaler and ceiling
for the requested period and returns the achieved period in cycles.  Only the
returned `actual_cycles` is modelled; the `TCCR1B`/`OCR1A` register writes are
hardware effects. -/
def config_step_timer (cycles : ℕ) : ℕ :=
  if cycles ≤ 0xffff then cycles
  else if cycles ≤ 0x7ffff then (cycles >>> 3) * 8
  else if cycles ≤ 0x3fffff then (cycles >>> 6) * 64
  else if cycles ≤ 0xffffff then (cycles >>> 8) * 256
  else if cycles ≤ 0x3ffffff then (cycles >>> 10) * 1024
  else 0xffff * 1024

/-- `adjust_speed` (stepper.c lines 575-579): clamp the requested rate up to
`MINIMUM_STEPS_PER_MINUTE` and reprogram the step timer; returns the new
`cycles_per_step_event`. -/
def adjust_speed (cfg : Config) (steps_per_minute : ℕ) : ℕ :=
  let spm := if steps_per_minute < cfg.min_steps_per_minute
             then cfg.min_steps_per_minute else steps_per_minute
  config_step_timer (CYCLES_PER_MINUTE / spm)

/-- `acceleration_tick` (stepper.c lines 524-532): advance the tick accumulator
by one step-event period; fire when it exceeds `CYCLES_PER_ACCELERATION_TICK`.
Returns (fired, new accumulator). -/
def acceleration_tick (cycles_per_step_event acc : ℕ) : Bool × ℕ :=
  let acc2 := acc + cycles_per_step_event
  if CYCLES_PER_ACCELERATION_TICK < acc2 then (true, acc2 - CYCLES_PER_ACCELERATION_TICK)
  else (false, acc2)

/-! ### Motion state and the per-step-event body of the ISR -/

/-- The mutable state the motion part of the ISR works on: the Bresenham
counters (`int32_t`), the trapezoid-generator variables, the absolute position
(`stepper_position`), the commanded laser duty (the state of
`control_laser_intensity`, an external setter per the spec's interfaces) and
the pending raster byte stream (the serial FIFO, an external interface). -/
structure MotionState where
  counter_x : ℤ
  counter_y : ℤ
  counter_z : ℤ
  step_events_completed : ℕ
  adjusted_rate : ℕ
  acceleration_tick_counter : ℕ
  cycles_per_step_event : ℕ
  pos_x : ℤ
  pos_y : ℤ
  pos_z : ℤ
  laser_intensity : ℕ
  raster_data : List ℕ
  out_bits : OutBits
deriving DecidableEq, Repr

/-- One axis of the Bresenham distributor (stepper.c lines 352-362 and the two
analogous groups): add the axis step count to the accumulator; if it became
positive, emit a pulse and subtract `step_event_count`.  Returns
(pulse emitted, new accumulator). -/
def bres_axis (steps step_event_count : ℕ) (counter : ℤ) : Bool × ℤ :=
  let c := counter + steps
  if 0 < c then (true, c - step_event_count) else (false, c)

/-- Position bookkeeping attached to a pulse (stepper.c lines 357-361): the
direction bit decides between decrement and increment. -/
def step_position (dir pulse : Bool) (pos : ℤ) : ℤ :=
  if pulse then (if dir then pos - 1 else pos + 1) else pos

/-- The Bresenham section of the motion case (stepper.c lines 350-390):
rebuild `out_bits` from the block's direction bits, run the three axis
accumulators, update the absolute position, count the step event, and apply
the invert mask. -/
def bres_phase (cfg : Config) (b : Block) (s : MotionState) : MotionState :=
  let rx := bres_axis b.steps_x b.step_event_count s.counter_x
  let ry := bres_axis b.steps_y b.step_event_count s.counter_y
  let rz := bres_axis b.steps_z b.step_event_count s.counter_z
  { s with
    counter_x := rx.2
    counter_y := ry.2
    counter_z := rz.2
    pos_x := step_position b.dir_x rx.1 s.pos_x
    pos_y := step_position b.dir_y ry.1 s.pos_y
    pos_z := step_position b.dir_z rz.1 s.pos_z
    step_events_completed := s.step_events_completed + 1
    out_bits := OutBits.xorBits ⟨rx.1, ry.1, rz.1, b.dir_x, b.dir_y, b.dir_z⟩ cfg.invert_mask }

/-- Shared tail of every rate change (stepper.c lines 398-407, 419-432,
438-445 and the block-start initialization): store the new `adjusted_rate`,
reprogram the step timer via `adjust_speed`, and refresh the laser intensity
(zero for raster blocks, `adjust_beam_dynamics` otherwise). -/
def apply_rate (cfg : Config) (b : Block) (rate : ℕ) (s : MotionState) : MotionState :=
  { s with
    adjusted_rate := rate
    cycles_per_step_event := adjust_speed cfg rate
    laser_intensity :=
      if b.btype = BlockType.raster_line then 0 else cfg.beam_dynamics b rate }

/-- Accelerating branch (stepper.c lines 396-408).  `adjusted_rate` is a
`uint32_t`, so `adjusted_rate += rate_delta` wraps around modulo
`2^32 = 4294967296`; a wrapped (small) sum escapes the subsequent
`> nominal_rate` clamp exactly as in the C. -/
def accel_phase (cfg : Config) (b : Block) (s : MotionState) : MotionState :=
  let t := acceleration_tick s.cycles_per_step_event s.acceleration_tick_counter
  if t.1 then
    let r0 := (s.adjusted_rate + b.rate_delta) % 4294967296
    let r := if b.nominal_rate < r0 then b.nominal_rate else r0
    apply_rate cfg b r { s with acceleration_tick_counter := t.2 }
  else { s with acceleration_tick_counter := t.2 }

/-- Decelerating branch (stepper.c lines 417-433): saturating subtraction of
`rate_delta`, then clamp up to `final_rate`. -/
def decel_phase (cfg : Config) (b : Block) (s : MotionState) : MotionState :=
  let t := acceleration_tick s.cycles_per_step_event s.acceleration_tick_counter
  if t.1 then
    let r0 := if b.rate_delta < s.adjusted_rate then s.adjusted_rate - b.rate_delta else 0
    let r := if r0 < b.final_rate then b.final_rate else r0
    apply_rate cfg b r { s with acceleration_tick_counter := t.2 }
  else { s with acceleration_tick_counter := t.2 }

/-- Raster-pixel intensity mapping (stepper.c line 460):
`control_laser_intensity( (chr-128)*2*current_block->nominal_laser_intensity/255 )`.
`chr` is promoted to `int`, the division truncates toward zero, and the result
is narrowed to the `uint8_t` parameter, i.e. reduced modulo 256. -/
def raster_intensity (chr intensity : ℕ) : ℕ :=
  (((((chr : ℤ) - 128) * 2 * intensity).tdiv 255) % 256).toNat

/-- Cruising branch (stepper.c lines 436-462): snap to the nominal rate if
needed, and for raster blocks consume one raster byte every `pixel_steps`
events and set the laser from it.  `serial_raster_read` is modelled from the
spec as taking the head of the pending byte list (reads happen under `cli()`,
which the sequential model renders implicitly atomic). -/
def cruise_phase (cfg : Config) (b : Block) (s : MotionState) : MotionState :=
  let s1 := if s.adjusted_rate ≠ b.nominal_rate then apply_rate cfg b b.nominal_rate s else s
  if b.btype = BlockType.raster_line ∧ s1.step_events_completed % b.pixel_steps = 0 then
    let chr := s1.raster_data.headD 0
    { s1 with
      raster_data := s1.raster_data.tail
      laser_intensity := raster_intensity chr b.nominal_laser_intensity }
  else s1

/-- The speed-adjustment section for an unfinished block (stepper.c lines
393-463), dispatching on the phase of the trapezoid. -/
def speed_phase (cfg : Config) (b : Block) (s : MotionState) : MotionState :=
  if s.step_events_completed < b.accelerate_until then accel_phase cfg b s
  else if s.step_events_completed = b.decelerate_after then
    { s with acceleration_tick_counter := CYCLES_PER_ACCELERATION_TICK / 2 }
  else if b.decelerate_after ≤ s.step_events_completed then decel_phase cfg b s
  else cruise_phase cfg b s

/-- Block-finished branch (stepper.c lines 464-471): for raster blocks drain
the remaining raster bytes (`serial_consume_data`, modelled from the spec as
emptying the pending list).  Clearing `current_block` and discarding the
planner head happen at the machine level. -/
def finish_phase (b : Block) (s : MotionState) : MotionState :=
  if b.btype = BlockType.raster_line then { s with raster_data := [] } else s

/-- One step event of a LINE / RASTER_LINE block (the `TYPE_LINE` case of the
ISR, stepper.c lines 349-474): Bresenham distribution, step-event count, then
either the speed adjustment (block not finished) or the finish branch.
Returns the new motion state and whether the block finished. -/
def execStep (cfg : Config) (b : Block) (s : MotionState) : MotionState × Bool :=
  let s1 := bres_phase cfg b s
  if s1.step_events_completed < b.step_event_count then (speed_phase cfg b s1, false)
  else (finish_phase b s1, true)

/-- Block-start initialization (stepper.c lines 330-344): set the rate to
`initial_rate`, seed the acceleration tick counter at half a tick (midpoint
rule), program the timer, set the laser, seed the three Bresenham counters to
`-(step_event_count >> 1)` and zero the event count. -/
def block_init (cfg : Config) (b : Block) (s : MotionState) : MotionState :=
  let s1 := apply_rate cfg b b.initial_rate
      { s with acceleration_tick_counter := CYCLES_PER_ACCELERATION_TICK / 2 }
  let c : ℤ := -((b.step_event_count / 2 : ℕ) : ℤ)
  { s1 with
    counter_x := c
    counter_y := c
    counter_z := c
    step_events_completed := 0 }

/-- The motion state after the block has been initialized and `k` step events
have executed. -/
def run_block (cfg : Config) (b : Block) (s0 : MotionState) : ℕ → MotionState
  | 0 => block_init cfg b s0
  | k + 1 => (execStep cfg b (run_block cfg b s0 k)).1

/-- Whether the X axis emits a pulse at step event `k + 1` (events are counted
from 1; `pulse_x cfg b s0 k` is the pulse decision of the Bresenham
distributor at the `(k+1)`-st event). -/
def pulse_x (cfg : Config) (b : Block) (s0 : MotionState) (k : ℕ) : Bool :=
  (bres_axis b.steps_x b.step_event_count (run_block cfg b s0 k).counter_x).1

/-- Pulse decision of the Y axis at step event `k + 1`. -/
def pulse_y (cfg : Config) (b : Block) (s0 : MotionState) (k : ℕ) : Bool :=
  (bres_axis b.steps_y b.step_event_count (run_block cfg b s0 k).counter_y).1

/-- Number of X pulses emitted during the first `k` step events. -/
def pulses_x (cfg : Config) (b : Block) (s0 : MotionState) (k : ℕ) : ℕ :=
  ((List.range k).filter (pulse_x cfg b s0)).length

/-- Number of Y pulses emitted during the first `k` step events. -/
def pulses_y (cfg : Config) (b : Block) (s0 : MotionState) (k : ℕ) : ℕ :=
  ((List.range k).filter (pulse_y cfg b s0)).length

/-- Whole-machine state the ISR and the supervisor entry points touch: the
supervisor flags of stepper.c (lines 63-85), the `TIMSK1` `OCIE1A` bit (the
step-interrupt arm), the planner block buffer (external producer-consumer
queue, modelled from the spec as a list with `head?` peek / `tail` pop /
`[]` reset), the serial layer's accepting flag (`serial_stop`, modelled from
the spec), the PWM division counter, and the assist outputs. -/
structure MachState where
  busy : Bool
  processing_flag : Bool
  stop_requested : Bool
  stop_status : ℕ
  serial_accepting : Bool
  timer1_enabled : Bool
  current_block : Option Block
  queue : List Block
  motion : MotionState
  pwm_counter : ℕ
  air_assist : Bool
  aux1_assist : Bool
  aux2_assist : Bool
deriving DecidableEq, Repr

/-- `control_laser_intensity` (external setter, sense_control per the spec's
interfaces): store the commanded duty. -/
def control_laser_intensity (v : ℕ) (s : MachState) : MachState :=
  { s with motion := { s.motion with laser_intensity := v } }

/-- `stepper_stop_processing` (stepper.c lines 145-151): leave the processing
state, drop the current block, disarm the step interrupt, force the laser off. -/
def stepper_stop_processing (s : MachState) : MachState :=
  control_laser_intensity 0
    { s with processing_flag := false, current_block := none, timer1_enabled := false }

/-- `stepper_start_processing` (stepper.c lines 134-142). -/
def stepper_start_processing (cfg : Config) (s : MachState) : MachState :=
  if s.processing_flag then s
  else { s with
          processing_flag := true
          motion := { s.motion with out_bits := cfg.invert_mask }
          timer1_enabled := true }

/-- `stepper_processing` (stepper.c lines 154-156). -/
def stepper_processing (s : MachState) : Bool :=
  s.processing_flag

/-- `stepper_request_stop` (stepper.c lines 159-165): record the first reason
only (guarded by `stop_requested`) and tell the serial layer to stop. -/
def stepper_request_stop (status : ℕ) (s : MachState) : MachState :=
  if s.stop_requested then s
  else { s with stop_status := status, stop_requested := true, serial_accepting := false }

/-- `stepper_stop_status` (stepper.c lines 167-169). -/
def stepper_stop_status (s : MachState) : ℕ :=
  s.stop_status

/-- `stepper_stop_requested` (stepper.c lines 171-173). -/
def stepper_stop_requested (s : MachState) : Bool :=
  s.stop_requested

/-- `stepper_stop_resume` (stepper.c lines 175-178). -/
def stepper_stop_resume (s : MachState) : MachState :=
  { s with stop_status := STOPERROR_OK, stop_requested := false }

/-- `planner_reset_block_buffer` (external, modelled from the spec: drop all
pending blocks). -/
def planner_reset_block_buffer (s : MachState) : MachState :=
  { s with queue := [] }

/-- `planner_get_current_block` (external, modelled from the spec: non-blocking
peek at the head of the queue). -/
def planner_get_current_block (s : MachState) : Option Block :=
  s.queue.head?

/-- `planner_discard_current_block` (external, modelled from the spec: pop the
head of the queue). -/
def planner_discard_current_block (s : MachState) : MachState :=
  { s with queue := s.queue.tail }

/-- Sensed safety inputs read by the ISR's interlock section (`SENSE_*`
macros; external boolean observers per the spec's interfaces). -/
structure Sense where
  door_open : Bool
  chiller_off : Bool
  x1_limit : Bool
  x2_limit : Bool
  y1_limit : Bool
  y2_limit : Bool
  z1_limit : Bool
  z2_limit : Bool
deriving DecidableEq, Repr

/-- Dispatch on the current block's type (stepper.c lines 348-513): motion
blocks run one step event via `execStep` and are discarded when finished;
assist blocks toggle their output and are discarded immediately. -/
def isr_dispatch (cfg : Config) (b : Block) (s : MachState) : MachState :=
  match b.btype with
  | BlockType.line | BlockType.raster_line =>
    let r := execStep cfg b s.motion
    let s1 := { s with motion := r.1 }
    if r.2 then planner_discard_current_block { s1 with current_block := none } else s1
  | BlockType.air_assist_enable =>
    planner_discard_current_block { s with air_assist := true, current_block := none }
  | BlockType.air_assist_disable =>
    planner_discard_current_block { s with air_assist := false, current_block := none }
  | BlockType.aux1_assist_enable =>
    planner_discard_current_block { s with aux1_assist := true, current_block := none }
  | BlockType.aux1_assist_disable =>
    planner_discard_current_block { s with aux1_assist := false, current_block := none }
  | BlockType.aux2_assist_enable =>
    planner_discard_current_block { s with aux2_assist := true, current_block := none }
  | BlockType.aux2_assist_disable =>
    planner_discard_current_block { s with aux2_assist := false, current_block := none }

/-- Block-popping section of the ISR (stepper.c lines 321-345): with no
current block, peek the planner queue; if it is empty go idle, otherwise adopt
the head and, for motion blocks, run the block-start initialization. -/
def isr_pop_and_dispatch (cfg : Config) (s : MachState) : MachState :=
  match s.current_block with
  | some b => isr_dispatch cfg b s
  | none =>
    match planner_get_current_block s with
    | none => stepper_stop_processing s
    | some b =>
      let s1 := { s with current_block := some b }
      let s2 := if b.btype = BlockType.line ∨ b.btype = BlockType.raster_line
                then { s1 with motion := block_init cfg b s1.motion } else s1
      isr_dispatch cfg b s2

/-- The laser-pulsing section of the ISR (stepper.c lines 275-305, compiled in
when `STATIC_PWM_FREQ` is not defined): only the `pwm_counter` bookkeeping is
state; the TIMER0 one-shot and the PWM pin are hardware outputs. -/
def isr_pwm (cfg : Config) (s : MachState) : MachState :=
  if s.pwm_counter < cfg.beamdynamics_every then { s with pwm_counter := s.pwm_counter + 1 }
  else { s with pwm_counter := 1 }

/-- The step ISR, `ISR(TIMER1_COMPA_vect)` (stepper.c lines 224-516), as a
state transition.  Every exit path of the C routine restores `busy := false`,
so the net transition leaves `busy` unchanged; an invocation that observes
`busy = true` returns with no state change.  The step/direction port writes
and the TIMER2 pulse-reset arming (lines 308-312) are hardware outputs; the
values they emit are `s.motion.out_bits`, which the model does track. -/
def stepperISR (cfg : Config) (sense : Sense) (s : MachState) : MachState :=
  if s.busy then s
  else if s.stop_requested then
    planner_reset_block_buffer (stepper_stop_processing s)
  else
    let s1 := if cfg.enable_interlocks ∧ (sense.door_open ∨ sense.chiller_off)
              then control_laser_intensity 0 s else s
    if cfg.enable_interlocks ∧ sense.x1_limit then
      stepper_request_stop STOPERROR_LIMIT_HIT_X1 s1
    else if cfg.enable_interlocks ∧ sense.x2_limit then
      stepper_request_stop STOPERROR_LIMIT_HIT_X2 s1
    else if cfg.enable_interlocks ∧ sense.y1_limit then
      stepper_request_stop STOPERROR_LIMIT_HIT_Y1 s1
    else if cfg.enable_interlocks ∧ sense.y2_limit then
      stepper_request_stop STOPERROR_LIMIT_HIT_Y2 s1
    else if cfg.enable_interlocks ∧ cfg.enable_3axes ∧ sense.z1_limit then
      stepper_request_stop STOPERROR_LIMIT_HIT_Z1 s1
    else if cfg.enable_interlocks ∧ cfg.enable_3axes ∧ sense.z2_limit then
      stepper_request_stop STOPERROR_LIMIT_HIT_Z2 s1
    else
      isr_pop_and_dispatch cfg (isr_pwm cfg s1)

/-! ### Homing (stepper.c lines 601-680)

The homing loop reads the limit pins, counts down a 6-pulse overshoot
allowance per axis once its end-stop asserts, masks finished axes out of
`out_bits`, and pulses all still-active axes.  Per-axis state is the homing
flag (`x_axis`, mutated inside the routine), the overshoot counter and the
axis's step bit inside `out_bits`.  The `reverse_direction` / `INVERT_MASK` /
`DRIVEBOARD_USB` polarity transformations apply to the direction bits and to
how the raw `LIMIT_PIN` byte is decoded; they are absorbed into the per-axis
boolean sense streams handed to the model. -/

/-- Per-axis homing state: still-homing flag, overshoot allowance, step bit in
`out_bits`. -/
structure HomingAxis where
  active : Bool
  overshoot : ℕ
  out_bit : Bool
deriving DecidableEq, Repr

/-- One axis of the homing loop body (stepper.c lines 642-649 and the
analogous groups): while the end-stop reads asserted, count the overshoot
allowance down; at zero, leave the homing set and clear the axis's step bit. -/
def homing_axis_update (sensed : Bool) (a : HomingAxis) : HomingAxis :=
  if a.active ∧ sensed then
    if a.overshoot = 0 then { a with active := false, out_bit := !a.out_bit }
    else { a with overshoot := a.overshoot - 1 }
  else a

/-- Homing state for the three axes. -/
structure HomingState where
  x : HomingAxis
  y : HomingAxis
  z : HomingAxis
deriving DecidableEq, Repr

/-- Decoded per-iteration limit readings for the three axes. -/
structure HomingSense where
  x : Bool
  y : Bool
  z : Bool

/-- Initial homing state (stepper.c lines 604-612): overshoot allowances start
at 6; each requested axis contributes its step bit to `out_bits`. -/
def homing_init (x_axis y_axis z_axis : Bool) : HomingState :=
  ⟨⟨x_axis, 6, x_axis⟩, ⟨y_axis, 6, y_axis⟩, ⟨z_axis, 6, z_axis⟩⟩

/-- One iteration of the homing loop (the body of the `for(;;)` at stepper.c
line 625, before the pulse). -/
def homing_step (sense : HomingSense) (st : HomingState) : HomingState :=
  ⟨homing_axis_update sense.x st.x, homing_axis_update sense.y st.y,
   homing_axis_update sense.z st.z⟩

/-- Homing state before iteration `k`, for a given per-iteration sense stream
and requested axis set. -/
def homing_run (sense : ℕ → HomingSense) (x_axis y_axis z_axis : Bool) : ℕ → HomingState
  | 0 => homing_init x_axis y_axis z_axis
  | k + 1 => homing_step (sense k) (homing_run sense x_axis y_axis z_axis k)

/-- Whether the homing loop is still alive, i.e. pulses are still emitted
(stepper.c line 668: `if (x_axis || y_axis || z_axis)`). -/
def homing_live (st : HomingState) : Bool :=
  st.x.active || st.y.active || st.z.active

/-- Whether a step pulse is emitted on the X axis at iteration `k` of the
homing loop (stepper.c line 670: the pulse drives `out_bits & STEPPING_MASK`
after the masking updates of that iteration, and only while some axis is still
homing). -/
def homing_pulse_x (sense : ℕ → HomingSense) (x_axis y_axis z_axis : Bool) (k : ℕ) : Bool :=
  let st := homing_run sense x_axis y_axis z_axis (k + 1)
  st.x.out_bit && homing_live st

/-! ### Projection lemmas: which fields each ISR phase touches -/

theorem finish_phase_rate (b : Block) (s : MotionState) :
    (finish_phase b s).adjusted_rate = s.adjusted_rate := by
  simp only [finish_phase]; split_ifs <;> rfl

theorem block_init_pos_x (cfg : Config) (b : Block) (s : MotionState) :
    (block_init cfg b s).pos_x = s.pos_x := rfl

theorem block_init_pos_y (cfg : Config) (b : Block) (s : MotionState) :
    (block_init cfg b s).pos_y = s.pos_y := rfl

theorem block_init_pos_z (cfg : Config) (b : Block) (s : MotionState) :
    (block_init cfg b s).pos_z = s.pos_z := rfl

theorem block_init_rate (cfg : Config) (b : Block) (s : MotionState) :
    (block_init cfg b s).adjusted_rate = b.initial_rate := rfl

theorem bres_phase_rate (cfg : Config) (b : Block) (s : MotionState) :
    (bres_phase cfg b s).adjusted_rate = s.adjusted_rate := rfl

theorem speed_phase_rate_bounds (cfg : Config) (b : Block) (s : MotionState)
    (h1 : cfg.min_steps_per_minute ≤ s.adjusted_rate) (h2 : s.adjusted_rate ≤ b.nominal_rate)
    (hf1 : cfg.min_steps_per_minute ≤ b.final_rate) (hf2 : b.final_rate ≤ b.nominal_rate)
    (hov : b.nominal_rate + b.rate_delta < 4294967296) :
    cfg.min_steps_per_minute ≤ (speed_phase cfg b s).adjusted_rate ∧
      (speed_phase cfg b s).adjusted_rate ≤ b.nominal_rate := by
  simp only [speed_phase, accel_phase, decel_phase, cruise_phase, apply_rate]
  split_ifs <;> constructor <;> first
    | omega
    | (simp <;> omega)

theorem execStep_rate_bounds (cfg : Config) (b : Block) (s : MotionState)
    (h1 : cfg.min_steps_per_minute ≤ s.adjusted_rate) (h2 : s.adjusted_rate ≤ b.nominal_rate)
    (hf1 : cfg.min_steps_per_minute ≤ b.final_rate) (hf2 : b.final_rate ≤ b.nominal_rate)
    (hov : b.nominal_rate + b.rate_delta < 4294967296) :
    cfg.min_steps_per_minute ≤ ((execStep cfg b s).1).adjusted_rate ∧
      ((execStep cfg b s).1).adjusted_rate ≤ b.nominal_rate := by
  simp only [execStep]
  split_ifs
  · exact speed_phase_rate_bounds cfg b (bres_phase cfg b s) h1 h2 hf1 hf2 hov
  · rw [finish_phase_rate, bres_phase_rate]
    exact ⟨h1, h2⟩

/-! ### Concrete scenario data used by the spec's test scenarios -/

/-- Concrete build configuration for the scenarios: minimum rate 1600
steps/min, beam-dynamics divider 4, no inversion, interlocks and three axes
compiled in.  The dimming function is irrelevant to the scenarios (they use
raster blocks or zero intensity) and is taken constant 0. -/
def cfg0 : Config :=
  ⟨1600, 4, fun _ _ => 0, ⟨false, false, false, false, false, false⟩, true, true⟩

/-- Motion state at rest: all counters, rates and positions zero, no raster
data pending. -/
def motion0 : MotionState :=
  ⟨0, 0, 0, 0, 0, 0, 0, 0, 0, 0, 0, [], ⟨false, false, false, false, false, false⟩⟩

/-- The spec's diagonal 3:4 scenario block: `steps_x=3, steps_y=4,
step_event_count=4`, constant rate. -/
def b34 : Block :=
  ⟨BlockType.line, 3, 4, 0, false, false, false, 4,
   60000, 60000, 60000, 0, 0, 4, 0, 1⟩

/-- The spec's raster cruise scenario block: `pixel_steps=10,
step_event_count=100, nominal_laser_intensity=200`, constant rate (all cruise). -/
def bRaster : Block :=
  ⟨BlockType.raster_line, 100, 0, 0, false, false, false, 100,
   60000, 60000, 60000, 0, 0, 100, 200, 10⟩

/-- Motion state with the spec's raster byte stream pending. -/
def motionR : MotionState :=
  ⟨0, 0, 0, 0, 0, 0, 0, 0, 0, 0, 0, [128, 255, 192], ⟨false, false, false, false, false, false⟩⟩

/-- A motion block that decelerates immediately with `initial_rate = 0` and
`final_rate = 0`, both below any positive `MINIMUM_STEPS_PER_MINUTE`; its
planner fields satisfy `initial_rate, final_rate ≤ nominal_rate`. -/
def bDecel : Block :=
  ⟨BlockType.line, 10, 0, 0, false, false, false, 10,
   0, 60000, 0, 600, 0, 0, 0, 1⟩

/-! ### Claims C1, C2, C3, C7 -/

/-- Claim C3, counterexample: the block `bDecel` satisfies the claim's
hypotheses `initial_rate, final_rate ≤ nominal_rate`, yet with
`initial_rate = 0` the state starts the block at `adjusted_rate = 0`, and
after the first step event (deceleration phase, clamped up only to
`final_rate = 0`) `adjusted_rate` is still `0`, below the configured
`MINIMUM_STEPS_PER_MINUTE = 1600`. -/
theorem claim_C3_counterexample :
    bDecel.initial_rate ≤ bDecel.nominal_rate ∧
    bDecel.final_rate ≤ bDecel.nominal_rate ∧
    (run_block cfg0 bDecel motion0 0).adjusted_rate = 0 ∧
    (run_block cfg0 bDecel motion0 1).adjusted_rate = 0 ∧
    ¬(cfg0.min_steps_per_minute ≤ (run_block cfg0 bDecel motion0 1).adjusted_rate) := by
  decide

/-- Claim C3, amended: the invariant
`MINIMUM_STEPS_PER_MINUTE ≤ adjusted_rate ≤ nominal_rate` holds at every step
event of a motion block provided the planner-provided rates additionally
satisfy `MINIMUM_STEPS_PER_MINUTE ≤ initial_rate` and
`MINIMUM_STEPS_PER_MINUTE ≤ final_rate` (together with the claim's
`initial_rate, final_rate ≤ nominal_rate`), and the acceleration-phase
addition does not overflow the `uint32_t` `adjusted_rate`:
`nominal_rate + rate_delta < 2^32`.  Without the latter, the wrapped sum of
`adjusted_rate += rate_delta` escapes the `> nominal_rate` clamp and can land
below the minimum. -/
theorem claim_C3_adjusted_rate_invariant (cfg : Config) (b : Block) (s0 : MotionState)
    (hi1 : cfg.min_steps_per_minute ≤ b.initial_rate) (hi2 : b.initial_rate ≤ b.nominal_rate)
    (hf1 : cfg.min_steps_per_minute ≤ b.final_rate) (hf2 : b.final_rate ≤ b.nominal_rate)
    (hov : b.nominal_rate + b.rate_delta < 4294967296) :
    ∀ k, cfg.min_steps_per_minute ≤ (run_block cfg b s0 k).adjusted_rate ∧
      (run_block cfg b s0 k).adjusted_rate ≤ b.nominal_rate := by
  intro k
  induction k with
  | zero =>
    rw [show run_block cfg b s0 0 = block_init cfg b s0 from rfl, block_init_rate]
    exact ⟨hi1, hi2⟩
  | succ k ih =>
    exact execStep_rate_bounds cfg b (run_block cfg b s0 k) ih.1 ih.2 hf1 hf2 hov

/-- Claim C3, witness at the constant-rate 3:4 block after one step event. -/
theorem claim_C3_witness :
    (cfg0.min_steps_per_minute ≤ b34.initial_rate ∧ b34.initial_rate ≤ b34.nominal_rate ∧
      cfg0.min_steps_per_minute ≤ b34.final_rate ∧ b34.final_rate ≤ b34.nominal_rate ∧
      b34.nominal_rate + b34.rate_delta < 4294967296) ∧
    (cfg0.min_steps_per_minute ≤ (run_block cfg0 b34 motion0 1).adjusted_rate ∧
      (run_block cfg0 b34 motion0 1).adjusted_rate ≤ b34.nominal_rate) :=
  ⟨⟨by decide, by decide, by decide, by decide, by decide⟩,
   claim_C3_adjusted_rate_invariant cfg0 b34 motion0 (by decide) (by decide) (by decide)
     (by decide) (by decide) 1⟩

/-- Claim C7, counterexample: for the diagonal 3:4 block the Bresenham
distributor does not pulse X at step event 2 (it pulses at events 1, 3, 4),
contradicting the claimed pulse pattern of events 1, 2, 4. -/
theorem claim_C7_counterexample :
    pulse_x cfg0 b34 motion0 1 = false ∧ pulse_x cfg0 b34 motion0 2 = true := by
  decide

/-- Claim C7, amended: for the block `steps_x=3, steps_y=4,
step_event_count=4` with midpoint initialization, the executor emits 3
X-pulses and 4 Y-pulses over the 4 step events, with the X-pulses on step
events 1, 3 and 4 (not 1, 2, 4), and the positions advance by 3 and 4. -/
theorem claim_C7_diagonal_line :
    (pulse_x cfg0 b34 motion0 0 = true ∧ pulse_x cfg0 b34 motion0 1 = false ∧
      pulse_x cfg0 b34 motion0 2 = true ∧ pulse_x cfg0 b34 motion0 3 = true) ∧
    (pulse_y cfg0 b34 motion0 0 = true ∧ pulse_y cfg0 b34 motion0 1 = true ∧
      pulse_y cfg0 b34 motion0 2 = true ∧ pulse_y cfg0 b34 motion0 3 = true) ∧
    pulses_x cfg0 b34 motion0 4 = 3 ∧ pulses_y cfg0 b34 motion0 4 = 4 ∧
    (run_block cfg0 b34 motion0 4).pos_x = 3 ∧ (run_block cfg0 b34 motion0 4).pos_y = 4 := by
  decide

/-! ### Claim C4: the step-timer prescaler selection -/

/-- Claim C6, counterexample: in the spec's raster cruise scenario the byte
255 consumed at step event 20 yields commanded intensity
`(255-128)*2*200/255 = 50800/255 = 199` under the C integer division, not the
claimed 200. -/
theorem claim_C6_counterexample :
    (run_block cfg0 bRaster motionR 20).laser_intensity = 199 ∧ (199 : ℕ) ≠ 200 := by
  decide

/-- Claim C6, amended: in the raster cruise scenario (`pixel_steps=10`,
`step_event_count=100`, `nominal_laser_intensity=200`, stream
`[128, 255, 192]`) the laser intensity set at step events 10, 20 and 30 is
`(byte-128)*2*200/255` with truncating integer division, namely 0, 199 and 100
(not 0, 200, 100). -/
theorem claim_C6_raster_cruise :
    (run_block cfg0 bRaster motionR 10).laser_intensity = raster_intensity 128 200 ∧
    (run_block cfg0 bRaster motionR 20).laser_intensity = raster_intensity 255 200 ∧
    (run_block cfg0 bRaster motionR 30).laser_intensity = raster_intensity 192 200 ∧
    raster_intensity 128 200 = 0 ∧ raster_intensity 255 200 = 199 ∧
    raster_intensity 192 200 = 100 := by
  decide

/-! ### Machine-level helper lemmas for the ISR claims -/

theorem isr_pwm_current_block (cfg : Config) (s : MachState) :
    (isr_pwm cfg s).current_block = s.current_block := by
  simp only [isr_pwm]
  split_ifs <;> rfl

theorem isr_pwm_queue (cfg : Config) (s : MachState) :
    (isr_pwm cfg s).queue = s.queue := by
  simp only [isr_pwm]
  split_ifs <;> rfl

theorem request_stop_of_clear (k : ℕ) (s : MachState) (h : s.stop_requested = false) :
    stepper_request_stop k s
      = { s with stop_status := k, stop_requested := true, serial_accepting := false } := by
  simp [stepper_request_stop, h]

/-! ### Concrete machine scenarios -/

/-- Machine state in mid-execution of the diagonal block: ISR not busy, no
stop pending, processing armed, `b34` current with the planner still holding
it. -/
def machRun : MachState :=
  ⟨false, true, false, STOPERROR_OK, true, true, some b34, [b34], motion0, 1, false, false, false⟩

/-- Machine state with a stop request latched. -/
def machStop : MachState :=
  ⟨false, true, true, STOPERROR_LIMIT_HIT_X1, false, true, none, [], motion0, 1, false,
   false, false⟩

/-- All safety senses clear. -/
def senseNone : Sense :=
  ⟨false, false, false, false, false, false, false, false⟩

/-- The X1 limit switch asserted, everything else clear. -/
def senseX1 : Sense :=
  ⟨false, false, true, false, false, false, false, false⟩

/-! ### Claim C5: limit-triggered stop -/

/-- Claim C5, counterexample: with interlocks compiled in and `X1_LIMIT`
asserted during block execution, the single ISR invocation that observes the
limit records `stop_status = LIMIT_HIT_X1` but returns immediately after
`stepper_request_stop`: `processing()` is still true and the planner buffer is
untouched, so the claimed conjunction fails within that one invocation. -/
theorem claim_C5_counterexample :
    (stepperISR cfg0 senseX1 machRun).stop_status = STOPERROR_LIMIT_HIT_X1 ∧
    stepper_processing (stepperISR cfg0 senseX1 machRun) = true ∧
    (stepperISR cfg0 senseX1 machRun).queue = [b34] ∧
    (stepperISR cfg0 senseX1 machRun).current_block = some b34 := by
  decide

/-- Claim C5, amended: the invocation that observes `X1_LIMIT` latches
`stop_status = LIMIT_HIT_X1`, sets `stop_requested` and stops the serial
layer; the idle transition is taken at the top of the NEXT step-ISR
invocation, on whose exit `processing()` is false, the current block is
dropped, the step interrupt is disarmed, the planner buffer is reset and the
laser is off.  So the claimed post-state holds within two ISR invocations, not
one. -/
theorem claim_C5_limit_stop (cfg : Config) (sense : Sense) (s : MachState)
    (hil : cfg.enable_interlocks = true) (hbusy : s.busy = false)
    (hstop : s.stop_requested = false) (hx1 : sense.x1_limit = true) :
    (stepperISR cfg sense s).stop_status = STOPERROR_LIMIT_HIT_X1 ∧
    (stepperISR cfg sense s).stop_requested = true ∧
    (stepperISR cfg sense s).serial_accepting = false ∧
    (∀ sense2 : Sense,
      stepper_processing (stepperISR cfg sense2 (stepperISR cfg sense s)) = false ∧
      (stepperISR cfg sense2 (stepperISR cfg sense s)).current_block = none ∧
      (stepperISR cfg sense2 (stepperISR cfg sense s)).timer1_enabled = false ∧
      (stepperISR cfg sense2 (stepperISR cfg sense s)).queue = [] ∧
      (stepperISR cfg sense2 (stepperISR cfg sense s)).motion.laser_intensity = 0) := by
  have hsr : (if cfg.enable_interlocks ∧ (sense.door_open ∨ sense.chiller_off)
      then control_laser_intensity 0 s else s).stop_requested = false := by
    split_ifs <;> simpa [control_laser_intensity] using hstop
  have hsb : (if cfg.enable_interlocks ∧ (sense.door_open ∨ sense.chiller_off)
      then control_laser_intensity 0 s else s).busy = false := by
    split_ifs <;> simpa [control_laser_intensity] using hbusy
  have h1 : stepperISR cfg sense s
      = { (if cfg.enable_interlocks ∧ (sense.door_open ∨ sense.chiller_off)
           then control_laser_intensity 0 s else s) with
          stop_status := STOPERROR_LIMIT_HIT_X1
          stop_requested := true
          serial_accepting := false } := by
    simp only [stepperISR]
    rw [if_neg (by simp [hbusy]), if_neg (by simp [hstop]), if_pos (by simp [hil, hx1]),
      request_stop_of_clear _ _ hsr]
  refine ⟨by rw [h1], by rw [h1], by rw [h1], ?_⟩
  intro sense2
  have h2 : stepperISR cfg sense2 (stepperISR cfg sense s)
      = planner_reset_block_buffer (stepper_stop_processing (stepperISR cfg sense s)) := by
    rw [h1]
    simp only [stepperISR]
    rw [if_neg (by simpa using hsb), if_pos (by simp)]
  rw [h2]
  simp [planner_reset_block_buffer, stepper_stop_processing, control_laser_intensity,
    stepper_processing]

/-- Claim C5, witness at the concrete scenario. -/
theorem claim_C5_witness :
    (cfg0.enable_interlocks = true ∧ machRun.busy = false ∧ machRun.stop_requested = false ∧
      senseX1.x1_limit = true) ∧
    (stepperISR cfg0 senseX1 machRun).stop_status = STOPERROR_LIMIT_HIT_X1 :=
  ⟨⟨rfl, rfl, rfl, rfl⟩, (claim_C5_limit_stop cfg0 senseX1 machRun rfl rfl rfl rfl).1⟩

/-! ### Claim C8: request_stop is idempotent, first writer wins -/

/-- Claim C8: starting with `stop_requested` clear, `request_stop k1` followed
by `request_stop k2` records `k1`, leaves `stop_requested` set, and the second
call changes no supervisor state at all. -/
theorem claim_C8_request_stop_first_writer (k1 k2 : ℕ) (s : MachState)
    (h : s.stop_requested = false) :
    (stepper_request_stop k2 (stepper_request_stop k1 s)).stop_status = k1 ∧
    (stepper_request_stop k2 (stepper_request_stop k1 s)).stop_requested = true ∧
    stepper_request_stop k2 (stepper_request_stop k1 s) = stepper_request_stop k1 s := by
  simp [stepper_request_stop, h]

/-- Claim C8, witness with status codes 7 then 9. -/
theorem claim_C8_witness :
    machRun.stop_requested = false ∧
    (stepper_request_stop 9 (stepper_request_stop 7 machRun)).stop_status = 7 :=
  ⟨rfl, (claim_C8_request_stop_first_writer 7 9 machRun rfl).1⟩

/-! ### Claim C10: every idle transition goes through stepper_stop_processing -/

/-- Claim C10: `stepper_stop_processing` always clears the processing flag,
drops the current block, disarms the step interrupt and forces the laser off;
the ISR's stop-request path is exactly `stepper_stop_processing` followed by
the planner-buffer reset; and the queue-underrun path (no current block,
empty planner queue, no stop, no limit asserted) also leaves the machine with
processing off, no block, interrupt disarmed and the laser off. -/
theorem claim_C10_idle_via_stop_processing :
    (∀ s : MachState,
      stepper_processing (stepper_stop_processing s) = false ∧
      (stepper_stop_processing s).current_block = none ∧
      (stepper_stop_processing s).timer1_enabled = false ∧
      (stepper_stop_processing s).motion.laser_intensity = 0) ∧
    (∀ (cfg : Config) (sense : Sense) (s : MachState), s.busy = false → s.stop_requested = true →
      stepperISR cfg sense s = planner_reset_block_buffer (stepper_stop_processing s)) ∧
    (∀ (cfg : Config) (sense : Sense) (s : MachState), s.busy = false → s.stop_requested = false →
      sense.x1_limit = false → sense.x2_limit = false → sense.y1_limit = false →
      sense.y2_limit = false → sense.z1_limit = false → sense.z2_limit = false →
      s.current_block = none → s.queue = [] →
      stepper_processing (stepperISR cfg sense s) = false ∧
      (stepperISR cfg sense s).current_block = none ∧
      (stepperISR cfg sense s).timer1_enabled = false ∧
      (stepperISR cfg sense s).motion.laser_intensity = 0) := by
  refine ⟨?_, ?_, ?_⟩
  · intro s
    simp [stepper_stop_processing, control_laser_intensity, stepper_processing]
  · intro cfg sense s hb hs
    simp only [stepperISR]
    rw [if_neg (by simp [hb]), if_pos hs]
  · intro cfg sense s hb hs hx1 hx2 hy1 hy2 hz1 hz2 hcb hq
    have e1 : stepperISR cfg sense s
        = isr_pop_and_dispatch cfg (isr_pwm cfg
            (if cfg.enable_interlocks ∧ (sense.door_open ∨ sense.chiller_off)
             then control_laser_intensity 0 s else s)) := by
      simp only [stepperISR]
      rw [if_neg (by simp [hb]), if_neg (by simp [hs]), if_neg (by simp [hx1]),
        if_neg (by simp [hx2]), if_neg (by simp [hy1]), if_neg (by simp [hy2]),
        if_neg (by simp [hz1]), if_neg (by simp [hz2])]
    have h2 : (isr_pwm cfg
        (if cfg.enable_interlocks ∧ (sense.door_open ∨ sense.chiller_off)
         then control_laser_intensity 0 s else s)).current_block = none := by
      rw [isr_pwm_current_block]
      split_ifs <;> simpa [control_laser_intensity] using hcb
    have h3 : (isr_pwm cfg
        (if cfg.enable_interlocks ∧ (sense.door_open ∨ sense.chiller_off)
         then control_laser_intensity 0 s else s)).queue = [] := by
      rw [isr_pwm_queue]
      split_ifs <;> simpa [control_laser_intensity] using hq
    have e2 : stepperISR cfg sense s
        = stepper_stop_processing (isr_pwm cfg
            (if cfg.enable_interlocks ∧ (sense.door_open ∨ sense.chiller_off)
             then control_laser_intensity 0 s else s)) := by
      rw [e1]
      simp only [isr_pop_and_dispatch]
      rw [h2]
      simp [planner_get_current_block, h3]
    rw [e2]
    simp [stepper_stop_processing, control_laser_intensity, stepper_processing]

/-- Claim C10, witness: the stop-request path at a concrete machine state. -/
theorem claim_C10_witness :
    stepperISR cfg0 senseNone machStop
      = planner_reset_block_buffer (stepper_stop_processing machStop) :=
  claim_C10_idle_via_stop_processing.2.1 cfg0 senseNone machStop rfl rfl

/-! ### Claim C9: homing overshoot -/

/-- Characterization of the X-axis homing state when the X end-stop reads
clear before iteration `N` and asserted from iteration `N` on: the overshoot
allowance stays at 6 until the first assertion, counts down during iterations
`N..N+5`, and at iteration `N+6` the axis leaves the homing set and its step
bit is cleared. -/
theorem homing_run_x_char (sense : ℕ → HomingSense) (N : ℕ) (ya za : Bool)
    (hsx : ∀ i, (sense i).x = decide (N ≤ i)) :
    ∀ k, (homing_run sense true ya za k).x
      = if k ≤ N then ⟨true, 6, true⟩
        else if k ≤ N + 6 then ⟨true, 6 - (k - N), true⟩
        else ⟨false, 0, false⟩ := by
  intro k
  induction k with
  | zero =>
    rw [if_pos (Nat.zero_le N)]
    rfl
  | succ k ih =>
    have hstep : (homing_run sense true ya za (k + 1)).x
        = homing_axis_update (sense k).x (homing_run sense true ya za k).x := rfl
    rw [hstep, hsx k, ih]
    rcases Nat.lt_or_ge k N with h1 | h1
    · rw [if_pos (Nat.le_of_lt h1), if_pos (by omega)]
      unfold homing_axis_update
      dsimp only
      rw [if_neg (by simp; omega)]
    · rcases Nat.lt_or_ge k (N + 6) with h2 | h2
      · have hv : (if k ≤ N then (⟨true, 6, true⟩ : HomingAxis)
            else if k ≤ N + 6 then ⟨true, 6 - (k - N), true⟩ else ⟨false, 0, false⟩)
            = ⟨true, 6 - (k - N), true⟩ := by
          split_ifs with ha hb
          · have hkn : k = N := le_antisymm ha h1
            subst hkn
            simp
          · rfl
          · omega
        rw [hv]
        unfold homing_axis_update
        dsimp only
        rw [if_pos (by simp [h1]), if_neg (by omega)]
        rw [if_neg (by omega), if_pos (by omega)]
        have hov : 6 - (k - N) - 1 = 6 - (k + 1 - N) := by omega
        rw [hov]
      · rcases Nat.eq_or_lt_of_le h2 with h3 | h3
        · rw [if_neg (by omega), if_pos (by omega)]
          unfold homing_axis_update
          dsimp only
          rw [if_pos (by simp <;> omega), if_pos (by omega)]
          rw [if_neg (by omega), if_neg (by omega)]
          have hz6 : 6 - (k - N) = 0 := by omega
          rw [hz6]
          rfl
        · rw [if_neg (by omega), if_neg (by omega)]
          unfold homing_axis_update
          dsimp only
          rw [if_neg (by simp)]
          rw [if_neg (by omega), if_neg (by omega)]

/-- Claim C9: in a homing cycle where the X end-stop first asserts (and stays
asserted) at loop iteration `N`, the X axis emits a step pulse exactly at
iterations `0, ..., N+5`: six further pulses at-and-after the first assertion
(iterations `N..N+5`), none from iteration `N+6` on (the axis is masked out of
`out_bits` there), independently of what the other axes' end-stops do; over
any horizon `M` the number of X pulses is `min M (N+6)`. -/
theorem claim_C9_homing_overshoot (N : ℕ) (sy sz : ℕ → Bool) (ya za : Bool) :
    (∀ i, homing_pulse_x (fun i => ⟨decide (N ≤ i), sy i, sz i⟩) true ya za i
        = decide (i < N + 6)) ∧
    (∀ M, ((Finset.range M).filter
        (fun i => homing_pulse_x (fun i => ⟨decide (N ≤ i), sy i, sz i⟩) true ya za i
          = true)).card
      = min M (N + 6)) := by
  have hchar := homing_run_x_char (fun i => ⟨decide (N ≤ i), sy i, sz i⟩) N ya za
    (fun i => rfl)
  have hpulse : ∀ i, homing_pulse_x (fun i => ⟨decide (N ≤ i), sy i, sz i⟩) true ya za i
      = decide (i < N + 6) := by
    intro i
    simp only [homing_pulse_x, homing_live]
    rcases Nat.lt_or_ge i (N + 6) with h | h
    · rcases le_or_lt (i + 1) N with h2 | h2
      · rw [hchar (i + 1), if_pos h2]
        simp [h]
      · rw [hchar (i + 1), if_neg (by omega), if_pos (by omega)]
        simp [h]
    · rw [hchar (i + 1), if_neg (by omega), if_neg (by omega)]
      simp [Nat.not_lt.mpr h]
  refine ⟨hpulse, ?_⟩
  intro M
  have hset : (Finset.range M).filter
      (fun i => homing_pulse_x (fun i => ⟨decide (N ≤ i), sy i, sz i⟩) true ya za i = true)
      = Finset.range (min M (N + 6)) := by
    ext i
    simp only [Finset.mem_filter, Finset.mem_range, hpulse i, decide_eq_true_eq, Nat.lt_min]
  rw [hset, Finset.card_range]

end DB
